import Mathlib

/-!
Verification development for `src/pytest_httpserver/blocking_http_server.py`.

The file shallowly embeds the blocking HTTP server core: the
`BlockingRequestHandler` (a one-shot response slot backed by an unbounded
`Queue`), and the `BlockingHttpServer` with its two rendezvous operations
`dispatch` (connection-thread side) and `assert_request` (test-thread side).

Modelling conventions:
* A `Request` is identified by its identity (the Python code keys the
  `request_handlers` dict by the request object); we model identities as `Nat`.
* Python `Queue` objects are modelled as Lean lists, front of the list being
  the front of the queue: `put_nowait` appends at the back and never blocks
  (the queues are unbounded), `get` pops the head.
* The two timed blocking `get` calls inside `dispatch` are modelled by
  explicit environment parameters: `handlerArrival` is the handler (if any)
  that some `assert_request` call delivers into the per-request registry queue
  before the `timeout` elapses, and `responseArrival` is the response (if any)
  written into that handler's `response_queue` before the second `timeout`
  elapses.  `none` plays the role of the `Empty` exception of a timed-out
  `get`.  The timed `get` on `request_queue` inside `assert_request` is
  modelled by the queue's content when the wait ends: an empty queue is a
  timeout.
* Raised Python exceptions are modelled with `Except`: `dispatch` can only
  raise `AssertionError`; `assert_request` can raise `AssertionError` or
  `KeyError` (the latter from the plain dict lookup
  `self.request_handlers[request]`).
* Each operation additionally returns the ordered trace of its shared-state
  actions, so that ordering claims (register-before-publish,
  respond-before-raise, which timeout value bounds which wait) are statable.
-/

/-- A request, identified by its identity (dict key / queue element). -/
abbrev Request := Nat

/-- Responses.  The payloads of synthesized responses are built by
`respond_nohandler` in `httpserver.py`, outside `src/`; we keep them as an
opaque constructor tagged by the request, and let test-author responses be
arbitrary values. -/
inductive Response where
  | user (payload : Nat) : Response
  | nohandler (req : Request) : Response
  deriving DecidableEq, Repr

/-- Modelled from the spec: `respond_nohandler` (defined in `httpserver.py`,
not under `src/`) builds the synthesized "no handler / no match" error
response for a request.  Only its existence and per-request value matter
here. -/
def respond_nohandler (req : Request) : Response :=
  Response.nohandler req

/-- Class `BlockingRequestHandler` (lines 22-33): wraps `self.response_queue = Queue()`. -/
structure BlockingRequestHandler where
  response_queue : List Response
  deriving DecidableEq, Repr

/-- Constructor `BlockingRequestHandler.__init__` (lines 29-30): a fresh empty queue. -/
def BlockingRequestHandler.init : BlockingRequestHandler :=
  { response_queue := [] }

/-- Method `respond_with_response` (lines 32-33): `self.response_queue.put_nowait(response)`.
`put_nowait` on an unbounded `Queue` always succeeds without blocking, so the
embedding is a total function appending to the queue. -/
def BlockingRequestHandler.respond_with_response
    (h : BlockingRequestHandler) (response : Response) : BlockingRequestHandler :=
  { response_queue := h.response_queue ++ [response] }

/-- The errors `assert_request` and `dispatch` can raise.  An
`AssertionError`'s message is an f-string in the source; the constructors
carry the interpolated pieces (`str(matcher)` and the difference list), and
`AssertionError.message` rebuilds the message text. -/
inductive AssertionError where
  | waitingTimedOut (matcherDescr : String) : AssertionError
  | doesNotMatch (matcherDescr : String) (diff : List String) : AssertionError
  | noResponse (request : Request) : AssertionError
  deriving DecidableEq, Repr

/-- Rendering of the difference list inside the f-string of line 122. -/
def reprDiff (diff : List String) : String :=
  "[" ++ String.intercalate ", " diff ++ "]"

/-- The f-string messages of lines 112, 122 and 151. -/
def AssertionError.message : AssertionError → String
  | .waitingTimedOut d => "Waiting for request " ++ d ++ " timed out"
  | .doesNotMatch d diff => "Request " ++ d ++ " does not match: " ++ reprDiff diff
  | .noResponse request => "No response for request: " ++ toString request

/-- Python exceptions surfacing from `assert_request`: the explicit
`AssertionError` raises, and the `KeyError` a plain dict subscript raises when
the key is absent (line 118). -/
inductive PyError where
  | assertionError (a : AssertionError) : PyError
  | keyError (request : Request) : PyError
  deriving DecidableEq, Repr

/-- Modelled from the spec: a matcher as produced by `create_matcher` in
`httpserver.py` (not under `src/`).  Only the interface used by
`assert_request` matters: `difference request` is the Difference (empty list
means match, line 114/120), and `descr` is `str(matcher)` as interpolated into
the error messages. -/
structure Matcher where
  descr : String
  difference : Request → List String

/-- The per-request registry `self.request_handlers`:
a Python dict mapping a request to a `Queue` of handlers. -/
abbrev Registry := List (Request × List BlockingRequestHandler)

/-- Dict lookup `d[k]` as used on lines 118 and 144 (first entry wins; dict
keys are unique in any reachable state). -/
def lookupEntry (d : Registry) (k : Request) : Option (List BlockingRequestHandler) :=
  match d with
  | [] => none
  | (k1, v) :: rest => if k1 = k then some v else lookupEntry rest k

/-- Dict assignment `d[k] = v` (line 139): overwrite the entry if present,
otherwise append it. -/
def insertEntry (d : Registry) (k : Request) (v : List BlockingRequestHandler) : Registry :=
  match d with
  | [] => [(k, v)]
  | (k1, v1) :: rest => if k1 = k then (k, v) :: rest else (k1, v1) :: insertEntry rest k v

/-- Dict deletion `del d[k]` (line 155): remove the entry for `k`. -/
def eraseEntry (d : Registry) (k : Request) : Registry :=
  match d with
  | [] => []
  | (k1, v1) :: rest => if k1 = k then eraseEntry rest k else (k1, v1) :: eraseEntry rest k

/-- Ordered shared-state actions performed by `dispatch` and `assert_request`. -/
inductive Event where
  | registerEntry (req : Request) : Event
  | publishRequest (req : Request) : Event
  | waitHandler (req : Request) (timeoutUsed : Nat) : Event
  | waitResponse (timeoutUsed : Nat) : Event
  | popRequest (req : Request) : Event
  | deliverHandler (req : Request) : Event
  | pushResponse (response : Response) : Event
  deriving DecidableEq, Repr

/-- Default of the `timeout` parameter of `BlockingHttpServer.__init__`
(line 46: `timeout: int = 30`). -/
def SERVER_DEFAULT_TIMEOUT : Nat := 30

/-- Default of the per-call `timeout` parameter of `assert_request`
(line 62: `timeout: int = 30`). -/
def ASSERT_REQUEST_DEFAULT_TIMEOUT : Nat := 30

/-- State of `BlockingHttpServer`: the constructor-time `timeout` used for both
of `dispatch`'s waits, the shared FIFO `request_queue`, the per-request
registry `request_handlers`, and the shared error sink `self.assertions`
(managed by `add_assertion` of `HttpServerBase`). -/
structure BlockingHttpServer where
  timeout : Nat
  request_queue : List Request
  request_handlers : Registry
  assertions : List AssertionError
  deriving Repr

/-- Constructor `BlockingHttpServer.__init__` (lines 46-50): store `timeout`, create an
empty `request_queue` and an empty `request_handlers` dict. -/
def BlockingHttpServer.init (timeout : Nat) : BlockingHttpServer :=
  { timeout := timeout, request_queue := [], request_handlers := [], assertions := [] }

/-- Modelled from the spec: `add_assertion` of `HttpServerBase` (in
`httpserver.py`, not under `src/`) records an error into the shared,
inspectable error sink, surfaced to the test harness later. -/
def BlockingHttpServer.add_assertion
    (s : BlockingHttpServer) (a : AssertionError) : BlockingHttpServer :=
  { s with assertions := s.assertions ++ [a] }

/-- Result record of one `dispatch` call: the post-state, the returned
response or raised `AssertionError`, and the ordered action trace. -/
structure DispatchOutcome where
  state : BlockingHttpServer
  result : Except AssertionError Response
  trace : List Event
  deriving Repr

/-- Method `dispatch` (lines 126-155), connection-thread side.

```python
self.request_handlers[request] = Queue()
try:
    self.request_queue.put_nowait(request)
    try:
        request_handler = self.request_handlers[request].get(timeout=self.timeout)
    except Empty:
        return self.respond_nohandler(request)
    try:
        return request_handler.response_queue.get(timeout=self.timeout)
    except Empty:
        assertion = AssertionError(f"No response for request: {request}")
        self.add_assertion(assertion)
        raise assertion
finally:
    del self.request_handlers[request]
```

`handlerArrival` is the handler delivered (by `assert_request`) into the
fresh per-request queue before the first `get` times out (`none` = `Empty`);
its `response_queue` field is the state of the shared handler object at the
moment the second `get` ends its wait.  If that queue is non-empty the second
`get` returns its head immediately; otherwise `responseArrival` is the
response put into it before the second `get` times out (`none` = `Empty`). -/
def BlockingHttpServer.dispatch (s : BlockingHttpServer) (request : Request)
    (handlerArrival : Option BlockingRequestHandler)
    (responseArrival : Option Response) : DispatchOutcome :=
  let s1 : BlockingHttpServer :=
    { s with request_handlers := insertEntry s.request_handlers request [] }
  let s2 : BlockingHttpServer :=
    { s1 with request_queue := s1.request_queue ++ [request] }
  match handlerArrival with
  | none =>
    { state := { s2 with request_handlers := eraseEntry s2.request_handlers request },
      result := .ok (respond_nohandler request),
      trace := [.registerEntry request, .publishRequest request,
                .waitHandler request s.timeout] }
  | some request_handler =>
    match request_handler.response_queue with
    | response :: _ =>
      { state := { s2 with request_handlers := eraseEntry s2.request_handlers request },
        result := .ok response,
        trace := [.registerEntry request, .publishRequest request,
                  .waitHandler request s.timeout, .waitResponse s.timeout] }
    | [] =>
      match responseArrival with
      | some response =>
        { state := { s2 with request_handlers := eraseEntry s2.request_handlers request },
          result := .ok response,
          trace := [.registerEntry request, .publishRequest request,
                    .waitHandler request s.timeout, .waitResponse s.timeout] }
      | none =>
        let a := AssertionError.noResponse request
        let s3 := s2.add_assertion a
        { state := { s3 with request_handlers := eraseEntry s3.request_handlers request },
          result := .error a,
          trace := [.registerEntry request, .publishRequest request,
                    .waitHandler request s.timeout, .waitResponse s.timeout] }

/-- Result record of one `assert_request` call: the post-state, the returned
handler or raised error, and the ordered action trace. -/
structure AssertOutcome where
  state : BlockingHttpServer
  result : Except PyError BlockingRequestHandler
  trace : List Event

/-- Method `assert_request` (lines 52-124), test-thread side.

```python
try:
    request = self.request_queue.get(timeout=timeout)
except Empty:
    raise AssertionError(f"Waiting for request {matcher} timed out")
diff = matcher.difference(request)
request_handler = BlockingRequestHandler()
self.request_handlers[request].put_nowait(request_handler)
if diff:
    request_handler.respond_with_response(self.respond_nohandler(request))
    raise AssertionError(f"Request {matcher} does not match: {diff}")
return request_handler
```

The timed `get` is modelled by the queue's content when the wait ends: an
empty `request_queue` is the timeout (`Empty`).  The dict subscript on line
118 raises `KeyError` when the entry is absent.  The registry queue stores a
reference to the handler object, so after the mismatch path's
`respond_with_response` call the handler stored in the registry carries the
synthesized response; the value model stores that final handler state. -/
def BlockingHttpServer.assert_request (s : BlockingHttpServer)
    (matcher : Matcher) (timeout : Nat) : AssertOutcome :=
  match s.request_queue with
  | [] =>
    { state := s,
      result := .error (.assertionError (.waitingTimedOut matcher.descr)),
      trace := [] }
  | request :: rest =>
    let s1 : BlockingHttpServer := { s with request_queue := rest }
    let diff := matcher.difference request
    let request_handler := BlockingRequestHandler.init
    match lookupEntry s1.request_handlers request with
    | none =>
      { state := s1,
        result := .error (.keyError request),
        trace := [.popRequest request] }
    | some hq =>
      if diff = [] then
        let d2 := insertEntry s1.request_handlers request (hq ++ [request_handler])
        { state := { s1 with request_handlers := d2 },
          result := .ok request_handler,
          trace := [.popRequest request, .deliverHandler request] }
      else
        let responded := request_handler.respond_with_response (respond_nohandler request)
        let d2 := insertEntry s1.request_handlers request (hq ++ [responded])
        { state := { s1 with request_handlers := d2 },
          result := .error (.assertionError (.doesNotMatch matcher.descr diff)),
          trace := [.popRequest request, .deliverHandler request,
                    .pushResponse (respond_nohandler request)] }

/-! ### Trace model of the shared `request_queue`

For the at-most-once-consumption claims the per-call models above are not
enough: those claims quantify over whole executions.  The only operations the
source performs on `request_queue` are `put_nowait(request)` inside `dispatch`
(line 141) and the timed `get` inside `assert_request` (line 110); `get`
removes the element it returns.  We model an execution as a sequence of these
two operations, tagging each enqueued request occurrence with a fresh serial
number standing for the Python object identity of the request. -/

/-- One operation on the shared `request_queue`: `enqueue` is `dispatch`'s
`put_nowait` (line 141), `dequeue` is `assert_request`'s timed `get`
(line 110); a `dequeue` on an empty queue is the timed-out wait. -/
inductive QueueOp where
  | enqueue (req : Request) : QueueOp
  | dequeue : QueueOp
  deriving DecidableEq, Repr

/-- Queue-trace state: the queue's content (front first), each occurrence
tagged with the serial number standing for its object identity; the next
fresh serial number; and the list of occurrences successfully returned by a
`get`, in consumption order. -/
structure QueueTraceState where
  pending : List (Nat × Request)
  nextId : Nat
  consumed : List (Nat × Request)
  deriving DecidableEq, Repr

/-- Initial queue-trace state: `Queue()` of line 49. -/
def qinit : QueueTraceState :=
  { pending := [], nextId := 0, consumed := [] }

/-- One step of the queue trace.  `enqueue` appends at the back with a fresh
tag; `dequeue` pops the front into `consumed`, or does nothing when the queue
is empty (the `get` times out and no request is consumed). -/
def qstep (s : QueueTraceState) : QueueOp → QueueTraceState
  | .enqueue req =>
    { s with pending := s.pending ++ [(s.nextId, req)], nextId := s.nextId + 1 }
  | .dequeue =>
    match s.pending with
    | [] => s
    | e :: rest =>
      { pending := rest, nextId := s.nextId, consumed := s.consumed ++ [e] }

/-- Run a whole execution of queue operations from the initial state. -/
def qrun (ops : List QueueOp) : QueueTraceState :=
  ops.foldl qstep qinit

/-- The identity tags currently alive in a queue-trace state. -/
def qtags (s : QueueTraceState) : List Nat :=
  (s.pending ++ s.consumed).map Prod.fst

/-- Well-formedness of a queue-trace state: all tags are distinct and below
the fresh counter. -/
def QWF (s : QueueTraceState) : Prop :=
  (qtags s).Nodup ∧ ∀ i ∈ qtags s, i < s.nextId

theorem qwf_qinit : QWF qinit := by
  constructor <;> simp [qinit, qtags]

theorem qwf_qstep (s : QueueTraceState) (op : QueueOp) (h : QWF s) :
    QWF (qstep s op) := by
  obtain ⟨hnd, hlt⟩ := h
  cases op with
  | enqueue req =>
    have hnotin : s.nextId ∉ qtags s := fun hmem => lt_irrefl _ (hlt _ hmem)
    have hnd2 : (s.nextId :: (s.pending.map Prod.fst ++ s.consumed.map Prod.fst)).Nodup := by
      refine List.nodup_cons.mpr ⟨?_, ?_⟩
      · simpa [qtags] using hnotin
      · simpa [qtags] using hnd
    constructor
    · have heq : qtags (qstep s (.enqueue req)) =
          s.pending.map Prod.fst ++ (s.nextId :: s.consumed.map Prod.fst) := by
        simp [qstep, qtags]
      rw [heq]
      exact List.perm_middle.symm.nodup_iff.mp hnd2
    · intro i hi
      have hmem : i ∈ s.pending.map Prod.fst ++ (s.nextId :: s.consumed.map Prod.fst) := by
        simpa [qstep, qtags] using hi
      have hgoal : (qstep s (.enqueue req)).nextId = s.nextId + 1 := by simp [qstep]
      rw [hgoal]
      rcases List.mem_append.mp hmem with hp | hc
      · exact Nat.lt_succ_of_lt (hlt i (by simp [qtags, List.map_append, hp]))
      · rcases List.mem_cons.mp hc with rfl | hc2
        · exact Nat.lt_succ_self _
        · exact Nat.lt_succ_of_lt (hlt i (by simp [qtags, List.map_append, hc2]))
  | dequeue =>
    cases hp : s.pending with
    | nil =>
      constructor
      · simpa [qstep, hp, qtags] using hnd
      · intro i hi
        have hgoal : (qstep s .dequeue).nextId = s.nextId := by simp [qstep, hp]
        rw [hgoal]
        exact hlt i (by simpa [qstep, hp, qtags] using hi)
    | cons e rest =>
      have hnd2 : (e.1 :: (rest.map Prod.fst ++ s.consumed.map Prod.fst)).Nodup := by
        simpa [qtags, hp] using hnd
      constructor
      · have heq : qtags (qstep s .dequeue) =
            rest.map Prod.fst ++ (s.consumed.map Prod.fst ++ [e.1]) := by
          simp [qstep, hp, qtags]
        rw [heq]
        have hperm : (rest.map Prod.fst ++ (s.consumed.map Prod.fst ++ [e.1])).Perm
            (e.1 :: (rest.map Prod.fst ++ s.consumed.map Prod.fst)) := by
          rw [← List.append_assoc]
          exact List.perm_append_comm
        exact hperm.nodup_iff.mpr hnd2
      · intro i hi
        have hmem : i ∈ rest.map Prod.fst ++ (s.consumed.map Prod.fst ++ [e.1]) := by
          simpa [qstep, hp, qtags] using hi
        have hgoal : (qstep s .dequeue).nextId = s.nextId := by simp [qstep, hp]
        rw [hgoal]
        refine hlt i ?_
        have hold : qtags s = e.1 :: (rest.map Prod.fst ++ s.consumed.map Prod.fst) := by
          simp [qtags, hp]
        rw [hold]
        rcases List.mem_append.mp hmem with h1 | h1
        · exact List.mem_cons_of_mem _ (List.mem_append.mpr (Or.inl h1))
        · rcases List.mem_append.mp h1 with h2 | h2
          · exact List.mem_cons_of_mem _ (List.mem_append.mpr (Or.inr h2))
          · rcases List.mem_singleton.mp h2 with rfl
            exact List.mem_cons_self _ _

theorem qwf_foldl (ops : List QueueOp) (s : QueueTraceState) (h : QWF s) :
    QWF (ops.foldl qstep s) := by
  induction ops generalizing s with
  | nil => simpa using h
  | cons op rest ih => exact ih _ (qwf_qstep s op h)

theorem qwf_qrun (ops : List QueueOp) : QWF (qrun ops) :=
  qwf_foldl ops qinit qwf_qinit

/-- Consumption is monotone: once an occurrence is consumed, it stays
consumed after any further step. -/
theorem consumed_mono_qstep (s : QueueTraceState) (op : QueueOp) (e : Nat × Request)
    (h : e ∈ s.consumed) : e ∈ (qstep s op).consumed := by
  cases op with
  | enqueue req => simpa [qstep] using h
  | dequeue =>
    cases hp : s.pending with
    | nil => simpa [qstep, hp] using h
    | cons f rest => simp [qstep, hp, h]

theorem consumed_mono_foldl (ops : List QueueOp) (s : QueueTraceState) (e : Nat × Request)
    (h : e ∈ s.consumed) : e ∈ (ops.foldl qstep s).consumed := by
  induction ops generalizing s with
  | nil => simpa using h
  | cons op rest ih => exact ih _ (consumed_mono_qstep s op e h)

/-! ### Registry lemmas -/

theorem lookupEntry_eraseEntry (d : Registry) (k : Request) :
    lookupEntry (eraseEntry d k) k = none := by
  induction d with
  | nil => rfl
  | cons e rest ih =>
    obtain ⟨k1, v1⟩ := e
    by_cases h : k1 = k
    · simp [eraseEntry, h, ih]
    · simp [eraseEntry, lookupEntry, h, ih]

theorem lookupEntry_insertEntry (d : Registry) (k : Request)
    (v : List BlockingRequestHandler) :
    lookupEntry (insertEntry d k v) k = some v := by
  induction d with
  | nil => simp [insertEntry, lookupEntry]
  | cons e rest ih =>
    obtain ⟨k1, v1⟩ := e
    by_cases h : k1 = k
    · simp [insertEntry, h, lookupEntry]
    · simp [insertEntry, h, lookupEntry, ih]

/-! ### Concrete fixtures used by witnesses and counterexamples -/

/-- A matcher that matches every request (empty Difference). -/
def m_ok : Matcher :=
  { descr := "m", difference := fun _ => [] }

/-- A matcher that rejects every request with a one-entry Difference. -/
def m_bad : Matcher :=
  { descr := "m", difference := fun _ => ["body mismatch"] }

/-- A server state whose queue holds request `0` but whose registry has no
entry for it: the connection thread has already timed out and deregistered. -/
def s_missing : BlockingHttpServer :=
  { timeout := 30, request_queue := [0], request_handlers := [], assertions := [] }

/-- A server state whose queue holds request `0` and whose registry still has
the (empty) per-request handler queue for it. -/
def s_entry : BlockingHttpServer :=
  { timeout := 30, request_queue := [0], request_handlers := [(0, [])], assertions := [] }

/-- A freshly constructed server with the default timeout. -/
def s_default : BlockingHttpServer :=
  BlockingHttpServer.init SERVER_DEFAULT_TIMEOUT

/-- A freshly constructed server with a non-default timeout. -/
def s_seven : BlockingHttpServer :=
  BlockingHttpServer.init 7

/-- A freshly created handler with an empty response slot. -/
def h_fresh : BlockingRequestHandler :=
  BlockingRequestHandler.init

/-! ### Claim theorems -/

/-- C1 counterexample: with request `0` queued but its PendingRegistry entry
already deregistered (the connection thread timed out), `assert_request` is
not a no-op on the missing entry: the dict subscript
`self.request_handlers[request]` (line 118) raises a `KeyError`. -/
theorem C1_counterexample :
    (s_missing.assert_request m_ok 30).result = .error (.keyError 0) := rfl

/-- C1 (amended): when the popped request's PendingRegistry entry no longer
exists, `assert_request` does not block, but the delivery attempt is not a
no-op: it raises a `KeyError` for that request, delivering nothing (the
registry is left unchanged). -/
theorem C1_missing_entry_raises_keyerror (s : BlockingHttpServer) (matcher : Matcher)
    (timeout : Nat) (request : Request) (rest : List Request)
    (hqueue : s.request_queue = request :: rest)
    (hmiss : lookupEntry s.request_handlers request = none) :
    (s.assert_request matcher timeout).result = .error (.keyError request) ∧
    (s.assert_request matcher timeout).state.request_handlers = s.request_handlers := by
  simp [BlockingHttpServer.assert_request, hqueue, hmiss]

/-- C1 witness: the amended statement applied to the concrete timed-out-entry
state. -/
theorem C1_witness :
    (s_missing.assert_request m_ok 30).state.request_handlers =
      s_missing.request_handlers :=
  (C1_missing_entry_raises_keyerror s_missing m_ok 30 0 [] rfl rfl).2

/-- C2 counterexample: a handler is assigned (`some h_fresh`) but no response
arrives in its slot within the timeout; `dispatch` does not return a
synthesized error-response value: it raises the `AssertionError` (lines
151-153) to its caller. -/
theorem C2_counterexample :
    (s_default.dispatch 0 (some h_fresh) none).result = .error (.noResponse 0) := rfl

/-- C2 (amended): when a handler is assigned but no response arrives in its
`ResponseSlot` within `serverTimeout`, `dispatch` records the failure in the
shared error sink (`add_assertion`, line 152) and raises that same
`AssertionError` to its caller (line 153); it does not return a response
value. -/
theorem C2_no_response_records_and_raises (s : BlockingHttpServer)
    (request : Request) (h : BlockingRequestHandler)
    (hq : h.response_queue = []) :
    (s.dispatch request (some h) none).result = .error (.noResponse request) ∧
    (s.dispatch request (some h) none).state.assertions =
      s.assertions ++ [.noResponse request] := by
  simp [BlockingHttpServer.dispatch, hq, BlockingHttpServer.add_assertion]

/-- C2 witness: the amended statement applied to a concrete no-response run. -/
theorem C2_witness :
    (s_default.dispatch 0 (some h_fresh) none).state.assertions =
      s_default.assertions ++ [.noResponse 0] :=
  (C2_no_response_records_and_raises s_default 0 h_fresh rfl).2

/-- C3: on every exit path of `dispatch` (response delivered, no-handler
timeout, no-response timeout) the PendingRegistry entry keyed by the request
is removed before `dispatch` terminates: the `finally` block of line 155 runs
on all three paths, so the post-state registry has no entry for the
request. -/
theorem C3_dispatch_removes_registry_entry (s : BlockingHttpServer) (request : Request)
    (handlerArrival : Option BlockingRequestHandler)
    (responseArrival : Option Response) :
    lookupEntry
      (s.dispatch request handlerArrival responseArrival).state.request_handlers
      request = none := by
  cases handlerArrival with
  | none => simp [BlockingHttpServer.dispatch, lookupEntry_eraseEntry]
  | some h =>
    cases hq : h.response_queue with
    | cons r rl => simp [BlockingHttpServer.dispatch, hq, lookupEntry_eraseEntry]
    | nil =>
      cases responseArrival with
      | some r => simp [BlockingHttpServer.dispatch, hq, lookupEntry_eraseEntry]
      | none =>
        simp [BlockingHttpServer.dispatch, hq, lookupEntry_eraseEntry,
          BlockingHttpServer.add_assertion]

/-- C5: in every execution of `dispatch`, the fresh delivery channel is
registered in the PendingRegistry (line 139) strictly before the request is
published onto the RequestQueue (line 141): the action trace always starts
with the register action followed by the publish action. -/
theorem C5_register_precedes_publish (s : BlockingHttpServer) (request : Request)
    (handlerArrival : Option BlockingRequestHandler)
    (responseArrival : Option Response) :
    ∃ tl, (s.dispatch request handlerArrival responseArrival).trace =
      Event.registerEntry request :: Event.publishRequest request :: tl := by
  cases handlerArrival with
  | none =>
    exact ⟨[Event.waitHandler request s.timeout], by simp [BlockingHttpServer.dispatch]⟩
  | some h =>
    cases hq : h.response_queue with
    | cons r rl =>
      exact ⟨[Event.waitHandler request s.timeout, Event.waitResponse s.timeout],
        by simp [BlockingHttpServer.dispatch, hq]⟩
    | nil =>
      cases responseArrival with
      | some r =>
        exact ⟨[Event.waitHandler request s.timeout, Event.waitResponse s.timeout],
          by simp [BlockingHttpServer.dispatch, hq]⟩
      | none =>
        exact ⟨[Event.waitHandler request s.timeout, Event.waitResponse s.timeout],
          by simp [BlockingHttpServer.dispatch, hq]⟩

/-- C8: `respond_with_response` is `put_nowait` on an unbounded queue: it is
a total function of the slot state, so it never blocks the writer and never
deadlocks.  This holds for the first call, for a second call on the same
handler (the slot simply buffers both responses), and for a late call on a
handler whose reader already timed out and returned (any slot content,
nobody consuming). -/
theorem C8_respond_never_blocks (h : BlockingRequestHandler) (r1 r2 : Response) :
    (h.respond_with_response r1).response_queue = h.response_queue ++ [r1] ∧
    ((h.respond_with_response r1).respond_with_response r2).response_queue =
      h.response_queue ++ [r1, r2] := by
  simp [BlockingRequestHandler.respond_with_response]

/-- C4: at-most-once matching.  Every request occurrence published onto the
RequestQueue is consumed by at most one successful `assert_request` call: in
any execution of enqueue (line 141) and dequeue (line 110) operations, the
identity tags of consumed occurrences are pairwise distinct, and each
`assert_request` call's only effect on the queue is to remove its front
element (it never re-inserts). -/
theorem C4_at_most_once_consumption (ops : List QueueOp) :
    ((qrun ops).consumed.map Prod.fst).Nodup ∧
    ∀ (s : BlockingHttpServer) (matcher : Matcher) (timeout : Nat),
      (s.assert_request matcher timeout).state.request_queue =
        s.request_queue.tail := by
  constructor
  · have hwf := qwf_qrun ops
    have hnd := hwf.1
    simp only [qtags, List.map_append] at hnd
    exact hnd.of_append_right
  · intro s matcher timeout
    cases hq : s.request_queue with
    | nil => simp [BlockingHttpServer.assert_request, hq]
    | cons request rest =>
      cases hl : lookupEntry s.request_handlers request with
      | none => simp [BlockingHttpServer.assert_request, hq, hl]
      | some hqv =>
        by_cases hdiff : matcher.difference request = [] <;>
          simp [BlockingHttpServer.assert_request, hq, hl, hdiff]

/-- C6: when the popped request does not match (non-empty Difference),
`assert_request` first delivers the handler (line 118), then pushes the
synthesized response through it (line 121), and only then raises the
request-did-not-match error (line 122) whose message contains the rendered
Difference; the handler is not returned to the caller, and the handler stored
in the registry carries the synthesized response. -/
theorem C6_mismatch_responds_then_raises (s : BlockingHttpServer) (matcher : Matcher)
    (timeout : Nat) (request : Request) (rest : List Request)
    (hqv : List BlockingRequestHandler)
    (hqueue : s.request_queue = request :: rest)
    (hentry : lookupEntry s.request_handlers request = some hqv)
    (hdiff : matcher.difference request ≠ []) :
    (s.assert_request matcher timeout).trace =
      [.popRequest request, .deliverHandler request,
       .pushResponse (respond_nohandler request)] ∧
    (s.assert_request matcher timeout).result =
      .error (.assertionError (.doesNotMatch matcher.descr (matcher.difference request))) ∧
    lookupEntry (s.assert_request matcher timeout).state.request_handlers request =
      some (hqv ++ [{ response_queue := [respond_nohandler request] }]) ∧
    (∃ pre, (AssertionError.doesNotMatch matcher.descr
        (matcher.difference request)).message =
      pre ++ reprDiff (matcher.difference request)) ∧
    ∀ rh, (s.assert_request matcher timeout).result ≠ .ok rh := by
  refine ⟨?_, ?_, ?_, ⟨"Request " ++ matcher.descr ++ " does not match: ", rfl⟩, ?_⟩ <;>
    simp [BlockingHttpServer.assert_request, hqueue, hentry, hdiff,
      BlockingRequestHandler.respond_with_response, BlockingRequestHandler.init,
      lookupEntry_insertEntry]

/-- C6 witness: the mismatch path on a concrete state with a live registry
entry. -/
theorem C6_witness :
    (s_entry.assert_request m_bad 30).trace =
      [.popRequest 0, .deliverHandler 0, .pushResponse (respond_nohandler 0)] ∧
    (s_entry.assert_request m_bad 30).result =
      .error (.assertionError (.doesNotMatch m_bad.descr (m_bad.difference 0))) := by
  have h := C6_mismatch_responds_then_raises s_entry m_bad 30 0 [] [] rfl rfl (by decide)
  exact ⟨h.1, h.2.1⟩

/-- C7: `assert_request` raises the no-request-arrived error exactly when the
timed `get` on the RequestQueue times out (modelled by the queue being empty
when the wait ends), and that error's message names the expectation
(`str(matcher)` is interpolated into it, line 112).  When a request is
popped, no no-request-arrived error is ever raised. -/
theorem C7_timeout_error_iff_queue_empty (s : BlockingHttpServer) (matcher : Matcher)
    (timeout : Nat) :
    (s.request_queue = [] →
      (s.assert_request matcher timeout).result =
        .error (.assertionError (.waitingTimedOut matcher.descr)) ∧
      ∃ pre post, (AssertionError.waitingTimedOut matcher.descr).message =
        pre ++ matcher.descr ++ post) ∧
    (s.request_queue ≠ [] →
      ∀ d, (s.assert_request matcher timeout).result ≠
        .error (.assertionError (.waitingTimedOut d))) := by
  constructor
  · intro hq
    exact ⟨by simp [BlockingHttpServer.assert_request, hq],
      ⟨"Waiting for request ", " timed out", rfl⟩⟩
  · intro hq d
    cases hqq : s.request_queue with
    | nil => exact absurd hqq hq
    | cons request rest =>
      cases hl : lookupEntry s.request_handlers request with
      | none => simp [BlockingHttpServer.assert_request, hqq, hl]
      | some hqv =>
        by_cases hdiff : matcher.difference request = [] <;>
          simp [BlockingHttpServer.assert_request, hqq, hl, hdiff]

/-- C7 witness: the timeout direction applied to an empty-queue state. -/
theorem C7_witness :
    (s_default.assert_request m_ok 5).result =
      .error (.assertionError (.waitingTimedOut m_ok.descr)) :=
  ((C7_timeout_error_iff_queue_empty s_default m_ok 5).1 rfl).1

/-- C9: the constructor-time timeout (default 30, line 46) bounds both of
`dispatch`'s internal waits: every handler-wait and every response-wait in
any `dispatch` trace uses `self.timeout` (lines 144 and 149); and the
per-call `timeout` parameter of `assert_request` defaults to 30 (line 62). -/
theorem C9_one_timeout_bounds_both_waits (s : BlockingHttpServer) (request : Request)
    (handlerArrival : Option BlockingRequestHandler)
    (responseArrival : Option Response) :
    SERVER_DEFAULT_TIMEOUT = 30 ∧
    ASSERT_REQUEST_DEFAULT_TIMEOUT = 30 ∧
    (BlockingHttpServer.init SERVER_DEFAULT_TIMEOUT).timeout = 30 ∧
    (∀ req t, Event.waitHandler req t ∈
        (s.dispatch request handlerArrival responseArrival).trace →
      t = s.timeout) ∧
    (∀ t, Event.waitResponse t ∈
        (s.dispatch request handlerArrival responseArrival).trace →
      t = s.timeout) := by
  refine ⟨rfl, rfl, rfl, ?_, ?_⟩
  · intro req t hmem
    cases handlerArrival with
    | none =>
      simp [BlockingHttpServer.dispatch] at hmem
      exact hmem.2
    | some h =>
      cases hq : h.response_queue with
      | cons r rl =>
        simp [BlockingHttpServer.dispatch, hq] at hmem
        exact hmem.2
      | nil =>
        cases responseArrival with
        | some r =>
          simp [BlockingHttpServer.dispatch, hq] at hmem
          exact hmem.2
        | none =>
          simp [BlockingHttpServer.dispatch, hq] at hmem
          exact hmem.2
  · intro t hmem
    cases handlerArrival with
    | none =>
      simp [BlockingHttpServer.dispatch] at hmem
    | some h =>
      cases hq : h.response_queue with
      | cons r rl =>
        simp [BlockingHttpServer.dispatch, hq] at hmem
        exact hmem
      | nil =>
        cases responseArrival with
        | some r =>
          simp [BlockingHttpServer.dispatch, hq] at hmem
          exact hmem
        | none =>
          simp [BlockingHttpServer.dispatch, hq] at hmem
          exact hmem

/-- C9 witness: a server constructed with timeout 7 produces a handler-wait
bounded by 7 in a concrete `dispatch` run. -/
theorem C9_witness : 7 = s_seven.timeout :=
  (C9_one_timeout_bounds_both_waits s_seven 0 none none).2.2.2.1 0 7 (by decide)

/-- C10: a popped request that fails to match stays permanently consumed.
The mismatch path of `assert_request` removes the request from the queue and
never re-enqueues it (its post-state queue is the tail and the call raises),
and in the queue-trace model a consumed occurrence is never pending again
after any continuation of the execution, so no later `assert_request` call
can receive it. -/
theorem C10_mismatch_request_never_requeued (s : BlockingHttpServer)
    (matcher : Matcher) (timeout : Nat) (request : Request) (rest : List Request)
    (hqv : List BlockingRequestHandler)
    (hqueue : s.request_queue = request :: rest)
    (hentry : lookupEntry s.request_handlers request = some hqv)
    (hdiff : matcher.difference request ≠ []) :
    (s.assert_request matcher timeout).state.request_queue = rest ∧
    (s.assert_request matcher timeout).result =
      .error (.assertionError (.doesNotMatch matcher.descr (matcher.difference request))) ∧
    ∀ (ops more : List QueueOp) (i : Nat),
      i ∈ (qrun ops).consumed.map Prod.fst →
      i ∉ (qrun (ops ++ more)).pending.map Prod.fst := by
  refine ⟨?_, ?_, ?_⟩
  · simp [BlockingHttpServer.assert_request, hqueue, hentry, hdiff]
  · simp [BlockingHttpServer.assert_request, hqueue, hentry, hdiff]
  · intro ops more i hcons hpend
    obtain ⟨e, hmem, hfst⟩ := List.mem_map.mp hcons
    have hrun : qrun (ops ++ more) = more.foldl qstep (qrun ops) := by
      simp [qrun, List.foldl_append]
    have hcons2 : e ∈ (qrun (ops ++ more)).consumed := by
      rw [hrun]
      exact consumed_mono_foldl more (qrun ops) e hmem
    have hwf := qwf_qrun (ops ++ more)
    have hnd := hwf.1
    simp only [qtags, List.map_append] at hnd
    have hdisj := (List.nodup_append.mp hnd).2.2
    have hic : i ∈ (qrun (ops ++ more)).consumed.map Prod.fst :=
      List.mem_map.mpr ⟨e, hcons2, hfst⟩
    exact hdisj hpend hic

/-- C10 witness: the mismatch path on a concrete state, plus a concrete
consumed occurrence staying out of the pending queue. -/
theorem C10_witness :
    (s_entry.assert_request m_bad 30).state.request_queue = [] ∧
    0 ∉ (qrun ([QueueOp.enqueue 5, QueueOp.dequeue] ++ [QueueOp.enqueue 5])).pending.map
      Prod.fst := by
  have h := C10_mismatch_request_never_requeued s_entry m_bad 30 0 [] [] rfl rfl (by decide)
  exact ⟨h.1, h.2.2 [QueueOp.enqueue 5, QueueOp.dequeue] [QueueOp.enqueue 5] 0 (by decide)⟩
